import Mathlib

/-!
# discord-transfer: a shallow embedding of the export/import pipeline

This file embeds the message-export and message-restore pipelines of
`src/discord_transfer/archive.py` and `src/discord_transfer/importer.py`
as pure Lean functions, and proves the testable properties of the
specification against them.

Modelling conventions:
* JSON values are the inductive `JVal`; a serialized `messages.jsonl` is a
  `List JVal`, one element per line.
* Python `dict.get(k)` is `jget`; Python truthiness of a JSON value is
  `truthy`.  Values outside the exporter's interchange format (for example a
  non-string `saved_as`) would crash the Python importer with a `TypeError`;
  the embedding only models the interchange format the exporter produces.
* `datetime.isoformat()` is strictly monotone in the timestamp, so
  `created_at` is embedded as a natural number.
* Filesystem reads are a predicate `String → Bool` over file names relative
  to the relevant `attachments` directory; network sends are reified as
  `SendAction` values instead of being performed.
-/

namespace DiscordTransfer

/-- JSON values, the interchange format of `messages.jsonl` and `meta.json`. -/
inductive JVal where
  | jnull
  | jbool (b : Bool)
  | jnum (n : Nat)
  | jstr (s : String)
  | jarr (xs : List JVal)
  | jobj (fields : List (String × JVal))

/-- Python `d.get(k)`: first binding of `k` in an object, `none` otherwise. -/
def jget (v : JVal) (k : String) : Option JVal :=
  match v with
  | .jobj fields => fields.lookup k
  | _ => none

/-- Python truthiness of a JSON value (`None`, `False`, `0`, `""`, `[]`,
`\x7b\x7d` are falsy). -/
def truthy : JVal → Bool
  | .jnull => false
  | .jbool b => b
  | .jnum n => n != 0
  | .jstr s => s != ""
  | .jarr xs => !xs.isEmpty
  | .jobj fields => !fields.isEmpty

/-- Truthiness of a `d.get(k)` result: an absent key is `None`, hence falsy. -/
def truthyO : Option JVal → Bool
  | none => false
  | some v => truthy v

/-- Base-10 digits of `n`, least significant first, with explicit fuel so
that the definition is structural and evaluates inside the kernel. -/
def natDigitsLE : Nat → Nat → List Nat
  | 0, _ => []
  | f + 1, n => if n = 0 then [] else n % 10 :: natDigitsLE f (n / 10)

/-- The decimal digit characters of `n`, most significant first, as Python's
`str(n)` / f-string formatting renders a non-negative integer. -/
def natChars (n : Nat) : List Char :=
  if n = 0 then ['0']
  else ((natDigitsLE n n).map (fun d => Char.ofNat (48 + d))).reverse

/-- Python `str(n)` for a non-negative integer. -/
def natStr (n : Nat) : String := ⟨natChars n⟩

/-- Python `str(x)` on the JSON values the interchange format stores in
`reference` (used by the reply annotation f-string). -/
def jrender : JVal → String
  | .jnum n => natStr n
  | .jstr s => s
  | .jbool true => "True"
  | .jbool false => "False"
  | .jnull => "None"
  | _ => ""

/-- `archive.py`: `safe_name = f"\x7bmsg.id\x7d_\x7bidx\x7d_\x7batt.filename\x7d"`,
the collision-safe saved name of the `idx`-th attachment of message `msgId`. -/
def safe_name (msgId idx : Nat) (filename : String) : String :=
  natStr msgId ++ "_" ++ natStr idx ++ "_" ++ filename

/-- Decoding helper: recover the digit from its character. -/
def charToDigit (c : Char) : Nat := c.toNat - 48

/-- Decoding helper: parse a most-significant-first digit string back to the
number, a left inverse of `natChars`. -/
def decodeChars (cs : List Char) : Nat :=
  Nat.ofDigits 10 (cs.reverse.map charToDigit)


/- ## Export side: `archive.py` -/

/-- The author fields of a fetched message that `_export_channel` reads
(`msg.author.id`, the display name, the display avatar URL). -/
structure AuthorIn where
  id : Nat
  display_name : String
  avatar_url : Option String

/-- A message reference as the client library reports it; `message_id` may be
absent even when the reference object itself is present. -/
structure MsgRefIn where
  message_id : Option Nat

/-- One attachment of a fetched message.  `readOk` tells whether
`att.read()` succeeds; `errText` is `str(e)` of the raised error. -/
structure AttachmentIn where
  filename : String
  content_type : Option String
  size : Nat
  readOk : Bool
  errText : String

/-- The fields of a fetched message that the exporter reads. -/
structure MsgIn where
  id : Nat
  content : String
  created_at : Nat
  author : AuthorIn
  mentions : List Nat
  role_mentions : List Nat
  attachments : List AttachmentIn
  embeds : List JVal
  reference : Option MsgRefIn

/-- JSON of an optional string (`None` becomes `null`). -/
def optStr : Option String → JVal
  | none => .jnull
  | some s => .jstr s

/-- JSON of an optional number (`None` becomes `null`). -/
def optNum : Option Nat → JVal
  | none => .jnull
  | some n => .jnum n

/-- The attachment descriptor the export loop appends for the `idx`-th
attachment of message `msgId`: the full descriptor after a successful
download, or `\x7bfilename, error\x7d` when `att.read()` raised. -/
def attDescRecord (msgId idx : Nat) (att : AttachmentIn) : JVal :=
  if att.readOk then
    .jobj [("filename", .jstr att.filename),
           ("saved_as", .jstr (safe_name msgId idx att.filename)),
           ("content_type", optStr att.content_type),
           ("size", .jnum att.size)]
  else
    .jobj [("filename", .jstr att.filename),
           ("error", .jstr att.errText)]

/-- The `attachments` array built by the `enumerate(msg.attachments)` loop. -/
def attDescList (m : MsgIn) : List JVal :=
  (m.attachments.enum).map (fun p => attDescRecord m.id p.1 p.2)

/-- The attachment file names written into the `attachments/` directory for
one message (a file is written only when `att.read()` succeeded). -/
def attFilesWritten (m : MsgIn) : List String :=
  (m.attachments.enum).filterMap
    (fun p => if p.2.readOk then some (safe_name m.id p.1 p.2.filename) else none)

/-- The `record` dict `_export_channel` serializes for one top-level
message, field for field in source order. -/
def channelRecord (m : MsgIn) : JVal :=
  .jobj [("id", .jnum m.id),
         ("content", .jstr m.content),
         ("created_at", .jnum m.created_at),
         ("author", .jobj [("id", .jnum m.author.id),
                           ("name", .jstr m.author.display_name),
                           ("avatar", optStr m.author.avatar_url)]),
         ("mentions", .jarr (m.mentions.map .jnum)),
         ("role_mentions", .jarr (m.role_mentions.map .jnum)),
         ("attachments", .jarr (attDescList m)),
         ("embeds", .jarr m.embeds),
         ("reference", optNum (m.reference.bind MsgRefIn.message_id)),
         ("is_reply", .jbool m.reference.isSome)]

/-- The `record` dict `_export_thread` serializes for one thread message.
Field for field in source order; note the source builds this dict without
`mentions` and `role_mentions` entries. -/
def threadRecord (m : MsgIn) : JVal :=
  .jobj [("id", .jnum m.id),
         ("content", .jstr m.content),
         ("created_at", .jnum m.created_at),
         ("author", .jobj [("id", .jnum m.author.id),
                           ("name", .jstr m.author.display_name),
                           ("avatar", optStr m.author.avatar_url)]),
         ("attachments", .jarr (attDescList m)),
         ("embeds", .jarr m.embeds),
         ("reference", optNum (m.reference.bind MsgRefIn.message_id)),
         ("is_reply", .jbool m.reference.isSome)]

/-- The lines of the top-level `messages.jsonl` produced by
`_export_channel` on a plain text channel whose history is `history`
(oldest first).  The loop writes one record per message; the duplicated
serialization block that follows the loop then writes the record of the
loop variable `msg` once more — the last message of the history.  When the
history is empty that block reads the never-bound `msg` and raises
`NameError`, modelled as `none`. -/
def exportTextLines (history : List MsgIn) : Option (List JVal) :=
  match history.getLast? with
  | none => none
  | some lastMsg => some (history.map channelRecord ++ [channelRecord lastMsg])

/-- The lines of a thread's `messages.jsonl` produced by `_export_thread`
on its history (oldest first): one `threadRecord` per message. -/
def exportThreadLines (history : List MsgIn) : List JVal :=
  history.map threadRecord

/-- Top-level keys of a serialized record. -/
def recKeys : JVal → List String
  | .jobj fields => fields.map Prod.fst
  | _ => []

/-- The `id` fields of a list of serialized lines, in order. -/
def lineIds (lines : List JVal) : List Nat :=
  lines.filterMap (fun r =>
    match jget r "id" with
    | some (.jnum n) => some n
    | _ => none)

/- ### Archived-thread listing (`_export_channel`, lines 131-139) -/

/-- How the `archived_threads` iteration can fail. -/
inductive ListErr where
  | forbidden
  | other
deriving DecidableEq

/-- What the `archived_threads` iterator does on one run: the thread ids it
yields before finishing, and the error it raises afterwards, if any. -/
structure ArchivedListing where
  yielded : List Nat
  err : Option ListErr

/-- Observable outcome of the archived-thread phase. -/
structure ArchivedOutcome where
  exported : List Nat
  warned : Bool
  raised : Bool
deriving DecidableEq

/-- The `try/except` around the archived-thread loop: every yielded thread
is exported; `Forbidden` prints a warning; any other error is passed over;
neither re-raises. -/
def archivedPhase (l : ArchivedListing) : ArchivedOutcome :=
  match l.err with
  | none => { exported := l.yielded, warned := false, raised := false }
  | some .forbidden => { exported := l.yielded, warned := true, raised := false }
  | some .other => { exported := l.yielded, warned := false, raised := false }

/- ## Import side: `importer.py` -/

/-- A `discord.File` built by the restore loop: the saved file it reads and
the filename it will carry on the re-upload. -/
structure DiscordFile where
  savedPath : String
  filename : String
deriving DecidableEq

/-- The environment a send runs in: whether `webhook.send` raises, whether
`webhook.channel` has a `get_thread` method, and which thread ids
`get_thread` resolves. -/
structure SendEnv where
  webhookSendFails : Bool
  hasGetThread : Bool
  resolves : Nat → Bool

/-- A network send as performed by `_send_via_webhook`: via the webhook
proxy (optionally into a thread), as the bot into a thread, or as the bot
directly into the channel. -/
inductive SendAction where
  | webhookSend (content : String) (username avatar : Option String)
      (files : List DiscordFile) (thread : Option Nat)
  | threadSend (tid : Nat) (content : String) (files : List DiscordFile)
  | channelSend (content : String) (files : List DiscordFile)
deriving DecidableEq

/-- What one call of `_send_via_webhook` does: the first attempt (always
through the webhook proxy) and the send that actually lands. -/
structure SendOutcome where
  attempt : SendAction
  performed : SendAction
deriving DecidableEq

/-- `if thread_id and hasattr(webhook.channel, "get_thread"): thread_obj =
webhook.channel.get_thread(thread_id)` — the resolved thread object. -/
def resolveThread (env : SendEnv) (thread_id : Option Nat) : Option Nat :=
  match thread_id with
  | some t => if t ≠ 0 ∧ env.hasGetThread ∧ env.resolves t then some t else none
  | none => none

/-- `_send_via_webhook`: try `webhook.send` (into the resolved thread when
there is one); if it raises, fall back to a direct bot send — into the
target thread when `thread_id` is truthy and resolvable, else into
`webhook.channel`.  The fallback lies outside the `try`. -/
def sendViaWebhook (env : SendEnv) (content : String)
    (username avatar : Option String) (files : List DiscordFile)
    (thread_id : Option Nat) : SendOutcome :=
  let tobj := resolveThread env thread_id
  let attempt := SendAction.webhookSend content username avatar files tobj
  if env.webhookSendFails then
    let fallback :=
      match thread_id with
      | some t =>
        if t ≠ 0 then
          match resolveThread env (some t) with
          | some th => SendAction.threadSend th content files
          | none => SendAction.channelSend content files
        else SendAction.channelSend content files
      | none => SendAction.channelSend content files
    { attempt := attempt, performed := fallback }
  else
    { attempt := attempt, performed := attempt }

/-- `rec.get("attachments", [])` — the descriptor list of a record. -/
def recAtts (rec : JVal) : List JVal :=
  match jget rec "attachments" with
  | some (.jarr xs) => xs
  | _ => []

/-- One pass of the attachment loop of `_restore_messages`: keep a
descriptor when its `saved_as` is truthy and the saved file exists under
the `attachments` directory (`fs`), carrying `att.get("filename") or
saved` as upload filename. -/
def collectFiles (fs : String → Bool) : List JVal → List DiscordFile
  | [] => []
  | att :: rest =>
    match jget att "saved_as" with
    | some (.jstr s) =>
      if s ≠ "" ∧ fs s then
        { savedPath := s,
          filename :=
            match jget att "filename" with
            | some (.jstr f) => if f = "" then s else f
            | _ => s } :: collectFiles fs rest
      else collectFiles fs rest
    | _ => collectFiles fs rest

/-- The reply annotation: `f"(Reply to message \x7brec['reference']\x7d)\n"`
when both `is_reply` and `reference` are truthy, else the empty string. -/
def replyTag (rec : JVal) : String :=
  if truthyO (jget rec "is_reply") ∧ truthyO (jget rec "reference") then
    "(Reply to message " ++ jrender ((jget rec "reference").getD .jnull) ++ ")\n"
  else ""

/-- `rec.get("content") or ""` on interchange-format records: the stored
string, with `null`, `""` and an absent key all collapsing to `""`. -/
def effContent (rec : JVal) : String :=
  match jget rec "content" with
  | some (.jstr s) => s
  | _ => ""

/-- `(rec.get("author") or \x7b\x7d)` — the author object, an empty dict when
the stored author is falsy. -/
def authorObj (rec : JVal) : JVal :=
  match jget rec "author" with
  | some v => if truthy v then v else .jobj []
  | none => .jobj []

/-- A string field of the author object (`None` for absent or `null`). -/
def authorField (rec : JVal) (k : String) : Option String :=
  match jget (authorObj rec) k with
  | some (.jstr s) => some s
  | _ => none

/-- The restore counters dict (`counters.get(k, 0) + 1` updates). -/
structure Counters where
  messages : Nat
  thread_messages : Nat
  threads : Nat
  attachments : Nat
deriving DecidableEq

def Counters.init : Counters :=
  { messages := 0, thread_messages := 0, threads := 0, attachments := 0 }

/-- The record loop of `_restore_messages` over the lines of the top-level
`messages.jsonl`.  Per record: build the file list (counting each kept file
into `attachments`); in dry-run count the record into `messages` and move
on; otherwise skip when the prefixed content is empty and no files were
kept, else send via `_send_via_webhook` and count into `messages`. -/
def restoreMessages (env : SendEnv) (fs : String → Bool) (dry : Bool)
    (tgt : Option Nat) : List JVal → Counters → List SendOutcome × Counters
  | [], c => ([], c)
  | rec :: rest, c =>
    let files := collectFiles fs (recAtts rec)
    let c1 := { c with attachments := c.attachments + files.length }
    if dry then
      restoreMessages env fs dry tgt rest { c1 with messages := c1.messages + 1 }
    else
      let content := replyTag rec ++ effContent rec
      if content = "" ∧ files = [] then
        restoreMessages env fs dry tgt rest c1
      else
        let o := sendViaWebhook env content (authorField rec "name")
          (authorField rec "avatar") files tgt
        let r := restoreMessages env fs dry tgt rest
          { c1 with messages := c1.messages + 1 }
        (o :: r.1, r.2)

/-- One thread subdirectory of `threads/` as `_restore_threads` sees it. -/
structure ThreadDir where
  isDir : Bool
  hasMsgs : Bool
  recs : List JVal

/-- The dry-run branch of `_restore_threads` for one subdirectory: skip
non-directories and directories without a `messages.jsonl`; else count the
thread, each record into `thread_messages`, and each descriptor with a
truthy `saved_as` into `attachments` — with no existence check on the
saved file. -/
def threadDryStep (c : Counters) (t : ThreadDir) : Counters :=
  if t.isDir && t.hasMsgs then
    let c := { c with threads := c.threads + 1 }
    t.recs.foldl (fun c rec =>
      let c := { c with thread_messages := c.thread_messages + 1 }
      (recAtts rec).foldl (fun c att =>
        if truthyO (jget att "saved_as") then
          { c with attachments := c.attachments + 1 }
        else c) c) c
  else c

/-- The dry-run pass of `_restore_threads` over the thread directories. -/
def restoreThreadsDry (ts : List ThreadDir) (c : Counters) : Counters :=
  ts.foldl threadDryStep c

/-- Destination channel type, after the `isinstance` dispatch. -/
inductive ChanType where
  | text
  | forum

/-- Observable events of the main replay of `run_restore`. -/
inductive RestoreEvent where
  | hostThreadCreated (tid : Nat)
  | send (o : SendOutcome)

/-- The main-replay slice of `run_restore`: for a live forum destination a
hosting thread (of id `hostTid`) is created first and becomes the target
thread id of the whole `_restore_messages` call; for a dry-run forum the
`threads` counter is pre-incremented instead; for a text channel there is
no target thread. -/
def runRestoreMain (ct : ChanType) (dry : Bool) (env : SendEnv)
    (hostTid : Nat) (fs : String → Bool) (recs : List JVal) :
    List RestoreEvent × Counters :=
  match ct, dry with
  | .forum, false =>
    let r := restoreMessages env fs false (some hostTid) recs Counters.init
    (RestoreEvent.hostThreadCreated hostTid :: r.1.map .send, r.2)
  | .forum, true =>
    let r := restoreMessages env fs true none recs
      { Counters.init with threads := 1 }
    (r.1.map .send, r.2)
  | .text, _ =>
    let r := restoreMessages env fs dry none recs Counters.init
    (r.1.map .send, r.2)

/-- Does a send land inside thread `tid` (rather than as a freestanding
channel post)? -/
def intoThread (tid : Nat) : SendAction → Bool
  | .webhookSend _ _ _ _ (some t) => t == tid
  | .threadSend t _ _ => t == tid
  | _ => false

/-- The text a send carries. -/
def sendContent : SendAction → String
  | .webhookSend c _ _ _ _ => c
  | .threadSend _ c _ => c
  | .channelSend c _ => c

/-- The files a send carries. -/
def sendFiles : SendAction → List DiscordFile
  | .webhookSend _ _ _ f _ => f
  | .threadSend _ _ f => f
  | .channelSend _ f => f

/- ## Concrete fixtures used by the evaluation theorems -/

/-- A successful download of `pic.png`. -/
def attPic : AttachmentIn where
  filename := "pic.png"
  content_type := some "image/png"
  size := 4
  readOk := true
  errText := ""

/-- First fixture message: id 1, no attachments. -/
def mA : MsgIn where
  id := 1
  content := "first"
  created_at := 10
  author := { id := 7, display_name := "alice", avatar_url := none }
  mentions := []
  role_mentions := []
  attachments := []
  embeds := []
  reference := none

/-- Second fixture message: id 2, two attachments with the same filename. -/
def mB : MsgIn where
  id := 2
  content := "second"
  created_at := 20
  author := { id := 7, display_name := "alice", avatar_url := none }
  mentions := [9]
  role_mentions := []
  attachments := [attPic, attPic]
  embeds := []
  reference := none

/-- Third fixture message: id 3, a reply to message 1. -/
def mC : MsgIn where
  id := 3
  content := "third"
  created_at := 30
  author := { id := 8, display_name := "bob", avatar_url := some "http://a/b" }
  mentions := []
  role_mentions := [4]
  attachments := []
  embeds := []
  reference := some { message_id := some 1 }

/-- A record with empty content and no attachments, as the importer reads
it back. -/
def recEmpty : JVal :=
  .jobj [("content", .jstr ""), ("attachments", .jarr [])]

/-- A record with empty content, no attachments, and a reply reference. -/
def recReply : JVal :=
  .jobj [("content", .jstr ""), ("is_reply", .jbool true),
         ("reference", .jnum 5), ("attachments", .jarr [])]

/-- An attachment descriptor whose saved file exists in the fixture
filesystem `fsOne`. -/
def attDesc1 : JVal :=
  .jobj [("filename", .jstr "pic.png"), ("saved_as", .jstr "2_0_pic.png"),
         ("content_type", .jstr "image/png"), ("size", .jnum 4)]

/-- A record with content and one attachment descriptor. -/
def recHi : JVal :=
  .jobj [("id", .jnum 2), ("content", .jstr "hi"),
         ("author", .jobj [("id", .jnum 7), ("name", .jstr "alice"),
                           ("avatar", .jnull)]),
         ("attachments", .jarr [attDesc1]), ("is_reply", .jbool false),
         ("reference", .jnull)]

/-- An attachment descriptor whose saved file does not exist on disk. -/
def attDescMissing : JVal :=
  .jobj [("filename", .jstr "f.png"), ("saved_as", .jstr "9_0_f.png")]

/-- A record holding only the missing-file descriptor. -/
def recMissing : JVal :=
  .jobj [("attachments", .jarr [attDescMissing])]

/-- Fixture filesystem with no files. -/
def fsEmpty : String → Bool := fun _ => false

/-- Fixture filesystem holding exactly the saved file of `attDesc1`. -/
def fsOne : String → Bool := fun s => s == "2_0_pic.png"

/-- A send environment whose webhook send succeeds. -/
def envOk : SendEnv where
  webhookSendFails := false
  hasGetThread := true
  resolves := fun _ => true

/-- A send environment whose webhook send raises, with thread 42
resolvable. -/
def envFail : SendEnv where
  webhookSendFails := true
  hasGetThread := true
  resolves := fun t => t == 42

/- ## Decimal rendering lemmas -/

theorem natDigitsLE_lt_ten : ∀ (f n : Nat), ∀ d ∈ natDigitsLE f n, d < 10 := by
  intro f
  induction f with
  | zero => intro n d hd; simp [natDigitsLE] at hd
  | succ f ih =>
    intro n d hd
    unfold natDigitsLE at hd
    split at hd
    · simp at hd
    · rcases List.mem_cons.mp hd with h | h
      · subst h; exact Nat.mod_lt _ (by norm_num)
      · exact ih _ d h

theorem digitChar_ne_underscore {d : Nat} (hd : d < 10) :
    Char.ofNat (48 + d) ≠ '_' := by
  interval_cases d <;> decide

theorem natChars_no_underscore (n : Nat) : ∀ c ∈ natChars n, c ≠ '_' := by
  intro c hc
  unfold natChars at hc
  split at hc
  · simp at hc; subst hc; decide
  · simp only [List.mem_reverse, List.mem_map] at hc
    obtain ⟨d, hd, rfl⟩ := hc
    exact digitChar_ne_underscore (natDigitsLE_lt_ten _ _ d hd)

theorem charToDigit_ofNat {d : Nat} (hd : d < 10) :
    charToDigit (Char.ofNat (48 + d)) = d := by
  interval_cases d <;> decide

theorem ofDigits_natDigitsLE : ∀ (f n : Nat), n ≤ f →
    Nat.ofDigits 10 (natDigitsLE f n) = n := by
  intro f
  induction f with
  | zero =>
    intro n hn
    interval_cases n
    simp [natDigitsLE]
  | succ f ih =>
    intro n hn
    unfold natDigitsLE
    split
    · next h => simp [h]
    · next h =>
      rw [Nat.ofDigits_cons]
      have hdiv : n / 10 ≤ f := by
        have : n / 10 < n := Nat.div_lt_self (Nat.pos_of_ne_zero h) (by norm_num)
        omega
      rw [ih _ hdiv]
      omega

theorem decodeChars_natChars (n : Nat) : decodeChars (natChars n) = n := by
  unfold natChars decodeChars
  split
  · next h => subst h; decide
  · next h =>
    rw [List.reverse_reverse, List.map_map]
    have heq : (natDigitsLE n n).map (charToDigit ∘ fun d => Char.ofNat (48 + d))
        = (natDigitsLE n n).map id := by
      apply List.map_congr_left
      intro d hd
      simp [charToDigit_ofNat (natDigitsLE_lt_ten _ _ d hd)]
    rw [heq, List.map_id]
    exact ofDigits_natDigitsLE n n le_rfl

theorem natChars_inj {a b : Nat} (h : natChars a = natChars b) : a = b := by
  have := congrArg decodeChars h
  rwa [decodeChars_natChars, decodeChars_natChars] at this

/-- Unique parsing at the first separator: if two underscore-free blocks are
each followed by `'_'`, equal concatenations force equal blocks and tails. -/
theorem underscore_parse :
    ∀ (a b x y : List Char), (∀ c ∈ a, c ≠ '_') → (∀ c ∈ b, c ≠ '_') →
      a ++ '_' :: x = b ++ '_' :: y → a = b ∧ x = y := by
  intro a
  induction a with
  | nil =>
    intro b x y _ hb h
    cases b with
    | nil => simpa using h
    | cons c cs =>
      simp only [List.nil_append, List.cons_append, List.cons.injEq] at h
      exact absurd h.1.symm (hb c (by simp))
  | cons c cs ih =>
    intro b x y ha hb h
    cases b with
    | nil =>
      simp only [List.cons_append, List.nil_append, List.cons.injEq] at h
      exact absurd h.1 (ha c (by simp))
    | cons d ds =>
      simp only [List.cons_append, List.cons.injEq] at h
      obtain ⟨rfl, h2⟩ := h
      obtain ⟨h3, h4⟩ := ih ds x y (fun e he => ha e (by simp [he]))
        (fun e he => hb e (by simp [he])) h2
      exact ⟨by rw [h3], h4⟩

theorem string_data_append (a b : String) : (a ++ b).data = a.data ++ b.data := by
  cases a; cases b; rfl

theorem safe_name_data (msgId idx : Nat) (filename : String) :
    (safe_name msgId idx filename).data
      = natChars msgId ++ '_' :: (natChars idx ++ '_' :: filename.data) := by
  unfold safe_name natStr
  simp only [string_data_append]
  simp

/-- Saved attachment names are globally injective in the
`(message id, index)` pair: distinct pairs give distinct names, whatever the
original filenames. -/
theorem safe_name_inj (msgId idx msgId' idx' : Nat) (fn fn' : String)
    (hne : msgId ≠ msgId' ∨ idx ≠ idx') :
    safe_name msgId idx fn ≠ safe_name msgId' idx' fn' := by
  intro h
  have hd := congrArg String.data h
  rw [safe_name_data, safe_name_data] at hd
  obtain ⟨h1, h2⟩ := underscore_parse _ _ _ _
    (natChars_no_underscore msgId) (natChars_no_underscore msgId') hd
  obtain ⟨h3, _⟩ := underscore_parse _ _ _ _
    (natChars_no_underscore idx) (natChars_no_underscore idx') h2
  rcases hne with hne | hne
  · exact hne (natChars_inj h1)
  · exact hne (natChars_inj h3)

/- ## Helper lemmas about the importer -/

theorem collectFiles_length_all_exist (fs : String → Bool) :
    ∀ atts : List JVal,
      (∀ att ∈ atts, ∃ s : String,
        jget att "saved_as" = some (.jstr s) ∧ s ≠ "" ∧ fs s = true) →
      (collectFiles fs atts).length = atts.length := by
  intro atts
  induction atts with
  | nil => intro _; rfl
  | cons att rest ih =>
    intro h
    obtain ⟨s, hs, hne, hfs⟩ := h att (by simp)
    unfold collectFiles
    rw [hs]
    simp only [hne, hfs, ne_eq, not_false_eq_true, and_self, if_true, List.length_cons]
    rw [ih (fun a ha => h a (by simp [ha]))]

theorem sendViaWebhook_carries (env : SendEnv) (c : String)
    (u a : Option String) (fl : List DiscordFile) (tid : Option Nat) :
    sendContent (sendViaWebhook env c u a fl tid).performed = c ∧
    sendFiles (sendViaWebhook env c u a fl tid).performed = fl ∧
    sendContent (sendViaWebhook env c u a fl tid).attempt = c ∧
    sendFiles (sendViaWebhook env c u a fl tid).attempt = fl := by
  unfold sendViaWebhook
  by_cases hf : env.webhookSendFails = true
  · rcases tid with _ | t
    · simp [hf, sendContent, sendFiles]
    · by_cases h0 : t = 0
      · simp [hf, h0, sendContent, sendFiles]
      · rcases hres : resolveThread env (some t) with _ | th
        · simp [hf, h0, hres, sendContent, sendFiles]
        · simp [hf, h0, hres, sendContent, sendFiles]
  · simp [hf, sendContent, sendFiles]

theorem restoreMessages_mem (env : SendEnv) (fs : String → Bool)
    (tgt : Option Nat) :
    ∀ (recs : List JVal) (c : Counters) (o : SendOutcome),
      o ∈ (restoreMessages env fs false tgt recs c).1 →
      ∃ rec, o = sendViaWebhook env (replyTag rec ++ effContent rec)
        (authorField rec "name") (authorField rec "avatar")
        (collectFiles fs (recAtts rec)) tgt := by
  intro recs
  induction recs with
  | nil =>
    intro c o h
    simp [restoreMessages] at h
  | cons rec rest ih =>
    intro c o h
    unfold restoreMessages at h
    simp only [Bool.false_eq_true, if_false] at h
    split at h
    · exact ih _ o h
    · rcases List.mem_cons.mp h with h' | h'
      · exact ⟨rec, h'⟩
      · exact ih _ o h'

theorem foldl_attCount (p : JVal → Bool) :
    ∀ (atts : List JVal) (c : Counters),
      (atts.foldl (fun c att =>
          if p att then { c with attachments := c.attachments + 1 } else c)
        c).attachments = c.attachments + atts.countP p := by
  intro atts
  induction atts with
  | nil => intro c; simp
  | cons att rest ih =>
    intro c
    rw [List.foldl_cons, List.countP_cons]
    by_cases hp : p att = true
    · simp only [hp, if_true, ih]
      omega
    · simp only [Bool.not_eq_true] at hp
      simp only [hp, Bool.false_eq_true, if_false, ih]
      omega

theorem sendViaWebhook_attempt (env : SendEnv) (c : String)
    (u a : Option String) (fl : List DiscordFile) (tid : Option Nat) :
    (sendViaWebhook env c u a fl tid).attempt
      = SendAction.webhookSend c u a fl (resolveThread env tid) := by
  unfold sendViaWebhook
  by_cases hf : env.webhookSendFails = true <;> simp [hf]

theorem sendViaWebhook_into_resolvable (env : SendEnv) (c : String)
    (u a : Option String) (fl : List DiscordFile) (t : Nat)
    (hg : env.hasGetThread = true) (hr : env.resolves t = true)
    (h0 : t ≠ 0) :
    intoThread t (sendViaWebhook env c u a fl (some t)).attempt = true ∧
    intoThread t (sendViaWebhook env c u a fl (some t)).performed = true := by
  unfold sendViaWebhook resolveThread
  by_cases hf : env.webhookSendFails = true <;>
    simp [hf, hg, hr, h0, intoThread]

/- ## Claim theorems -/

/-- Claim C1 (code bug).  The spec says a channel with exactly 3 messages
exports a `messages.jsonl` with exactly 3 lines and each id at most once;
the duplicated serialization block after the history loop in
`_export_channel` re-writes the last message, so the code produces 4 lines
and the final id twice.  Evaluated here at a concrete 3-message history. -/
theorem C1_export_duplicates_last_line :
    ((exportTextLines [mA, mB, mC]).getD []).length = 4 ∧
    lineIds ((exportTextLines [mA, mB, mC]).getD []) = [1, 2, 3, 3] := by
  constructor
  · decide
  · decide

/-- Claim C2 (confirmed).  Exporting a plain text channel with an empty
message history does not complete: the duplicated block after the loop
reads the never-bound loop variable `msg` and raises `NameError`
(modelled by `none`); a non-empty history is exactly what avoids it. -/
theorem C2_empty_history_export_raises :
    exportTextLines [] = none ∧
    ∀ history : List MsgIn, exportTextLines history = none ↔ history = [] := by
  constructor
  · rfl
  · intro history
    unfold exportTextLines
    rcases h : history.getLast? with _ | m
    · simp [List.getLast?_eq_none_iff.mp h]
    · have : history ≠ [] := by
        intro he
        rw [he] at h
        simp at h
      simp [this]

/-- Claim C2 witness: the equivalence applied at a concrete non-empty
history shows the export succeeds there. -/
theorem C2_empty_history_export_raises_witness :
    exportTextLines [mA] ≠ none := by
  have h := (C2_empty_history_export_raises.2 [mA]).not
  simp only [ne_eq]
  intro hc
  exact absurd (C2_empty_history_export_raises.2 [mA] |>.mp hc) (by simp)

/-- Claim C3 counterexample.  The claim says every record in every
`messages.jsonl` carries `mentions` and `role_mentions` keys; the record
`_export_thread` writes for a concrete thread message has neither. -/
theorem C3_counterexample_thread_record_lacks_mentions :
    exportThreadLines [mB] = [threadRecord mB] ∧
    "mentions" ∉ recKeys (threadRecord mB) ∧
    "role_mentions" ∉ recKeys (threadRecord mB) := by
  refine ⟨rfl, ?_, ?_⟩
  · decide
  · decide

/-- Claim C3 (amended).  Top-level channel records have exactly the spec's
ten keys, `mentions` and `role_mentions` included; thread records have the
same shape except that `mentions` and `role_mentions` are absent. -/
theorem C3_record_key_shapes (m : MsgIn) :
    recKeys (channelRecord m) = ["id", "content", "created_at", "author",
      "mentions", "role_mentions", "attachments", "embeds", "reference",
      "is_reply"] ∧
    recKeys (threadRecord m) = ["id", "content", "created_at", "author",
      "attachments", "embeds", "reference", "is_reply"] :=
  ⟨rfl, rfl⟩

/-- Claim C6 (confirmed).  The archived-thread phase never re-raises to the
caller; a `Forbidden` error prints the warning (and when it struck before
any thread was yielded, no archived thread is exported); any other error is
swallowed with no warning. -/
theorem C6_archived_listing_error_handling (l : ArchivedListing) :
    (archivedPhase l).raised = false ∧
    (l.err = some .forbidden →
      (archivedPhase l).warned = true ∧
      (l.yielded = [] → (archivedPhase l).exported = [])) ∧
    (l.err = some .other → (archivedPhase l).warned = false) := by
  rcases l with ⟨yielded, err⟩
  rcases err with _ | e
  · refine ⟨rfl, ?_, ?_⟩ <;> intro h <;> simp at h
  · cases e
    · refine ⟨rfl, ?_, ?_⟩
      · intro _
        exact ⟨rfl, fun hy => by simpa [archivedPhase] using hy⟩
      · intro h
        simp at h
    · refine ⟨rfl, ?_, fun _ => rfl⟩
      intro h
      simp at h

/-- Claim C6 witness: the forbidden case at a listing that failed before
yielding anything, and the silent case at another error. -/
theorem C6_archived_listing_error_handling_witness :
    (archivedPhase ⟨[], some .forbidden⟩).raised = false ∧
    (archivedPhase ⟨[], some .forbidden⟩).warned = true ∧
    (archivedPhase ⟨[], some .forbidden⟩).exported = [] ∧
    (archivedPhase ⟨[], some .other⟩).warned = false ∧
    (archivedPhase ⟨[], some .other⟩).raised = false := by
  have hf := C6_archived_listing_error_handling ⟨[], some .forbidden⟩
  have ho := C6_archived_listing_error_handling ⟨[], some .other⟩
  exact ⟨hf.1, (hf.2.1 rfl).1, (hf.2.1 rfl).2 rfl, ho.2.2 rfl, ho.1⟩

/-- Claim C8 (confirmed).  A successfully downloaded attachment's recorded
`saved_as` is `safe_name`, the `<message id>_<idx>_<original filename>`
string; and `safe_name` is injective in the `(message id, index)` pair, so
two attachments of one message — identical filenames included — and any
two distinct attachment slots of one directory get distinct names. -/
theorem C8_saved_names_unique :
    (∀ (msgId idx : Nat) (att : AttachmentIn), att.readOk = true →
      jget (attDescRecord msgId idx att) "saved_as"
        = some (.jstr (safe_name msgId idx att.filename))) ∧
    ∀ (msgId idx msgId' idx' : Nat) (fn fn' : String),
      msgId ≠ msgId' ∨ idx ≠ idx' →
      safe_name msgId idx fn ≠ safe_name msgId' idx' fn' := by
  constructor
  · intro msgId idx att h
    simp [attDescRecord, h, jget, List.lookup]
  · intro msgId idx msgId' idx' fn fn' hne
    exact safe_name_inj msgId idx msgId' idx' fn fn' hne

/-- Claim C8 witness: the two same-filename attachments of the fixture
message get the two distinct saved names `2_0_pic.png` and `2_1_pic.png`. -/
theorem C8_saved_names_unique_witness :
    jget (attDescRecord 2 0 attPic) "saved_as" = some (.jstr "2_0_pic.png") ∧
    jget (attDescRecord 2 1 attPic) "saved_as" = some (.jstr "2_1_pic.png") ∧
    safe_name 2 0 "pic.png" ≠ safe_name 2 1 "pic.png" := by
  refine ⟨?_, ?_, C8_saved_names_unique.2 2 0 2 1 "pic.png" "pic.png" (Or.inr (by decide))⟩
  · have h := C8_saved_names_unique.1 2 0 attPic (by decide)
    rw [h]
    have he : safe_name 2 0 attPic.filename = "2_0_pic.png" := by decide
    rw [he]
  · have h := C8_saved_names_unique.1 2 1 attPic (by decide)
    rw [h]
    have he : safe_name 2 1 attPic.filename = "2_1_pic.png" := by decide
    rw [he]

/-- Claim C4 counterexample.  The claim quantifies over every record whose
N attachment files all exist; with N = 0 and empty content the live import
sends no message at all, not exactly one: `_restore_messages` skips
empty-content, file-less records. -/
theorem C4_counterexample_empty_record_skipped :
    (restoreMessages envOk fsEmpty false none [recEmpty] Counters.init).1.length ≠ 1 := by
  decide

/-- Claim C4 (amended).  For a record whose attachment descriptors each
carry a nonempty `saved_as` naming an existing file, and whose effective
content (reply annotation plus stored content) is nonempty or which has at
least one descriptor, a live import performs exactly one send: it first
attempts the webhook proxy with exactly that content and those N files,
and whatever lands carries the same content and exactly N files; the
reply annotation is present exactly when `is_reply` and `reference` are
both truthy. -/
theorem C4_roundtrip_amended (env : SendEnv) (fs : String → Bool)
    (tgt : Option Nat) (rec : JVal)
    (hatt : ∀ att ∈ recAtts rec, ∃ s : String,
      jget att "saved_as" = some (.jstr s) ∧ s ≠ "" ∧ fs s = true)
    (hsend : replyTag rec ++ effContent rec ≠ "" ∨ recAtts rec ≠ []) :
    ∃ o : SendOutcome,
      (restoreMessages env fs false tgt [rec] Counters.init).1 = [o] ∧
      o.attempt = SendAction.webhookSend (replyTag rec ++ effContent rec)
        (authorField rec "name") (authorField rec "avatar")
        (collectFiles fs (recAtts rec)) (resolveThread env tgt) ∧
      (sendFiles o.performed).length = (recAtts rec).length ∧
      sendContent o.performed = replyTag rec ++ effContent rec ∧
      (restoreMessages env fs false tgt [rec] Counters.init).2.messages
        = Counters.init.messages + 1 := by
  have hlen := collectFiles_length_all_exist fs (recAtts rec) hatt
  have hcond : ¬ (replyTag rec ++ effContent rec = ""
      ∧ collectFiles fs (recAtts rec) = []) := by
    rintro ⟨h1, h2⟩
    rcases hsend with h | h
    · exact h h1
    · apply h
      apply List.length_eq_zero.mp
      rw [← hlen, h2]
      rfl
  refine ⟨sendViaWebhook env (replyTag rec ++ effContent rec)
      (authorField rec "name") (authorField rec "avatar")
      (collectFiles fs (recAtts rec)) tgt, ?_, ?_, ?_, ?_, ?_⟩
  · simp only [restoreMessages, Bool.false_eq_true, if_false, if_neg hcond]
  · exact sendViaWebhook_attempt env _ _ _ _ tgt
  · rw [(sendViaWebhook_carries env _ _ _ _ tgt).2.1]
    exact hlen
  · exact (sendViaWebhook_carries env _ _ _ _ tgt).1
  · simp only [restoreMessages, Bool.false_eq_true, if_false, if_neg hcond]

/-- Claim C4 witness: the amended round-trip applied to the fixture record
with one attachment backed by the fixture filesystem. -/
theorem C4_roundtrip_amended_witness :
    ∃ o : SendOutcome,
      (restoreMessages envOk fsOne false none [recHi] Counters.init).1 = [o] ∧
      o.attempt = SendAction.webhookSend (replyTag recHi ++ effContent recHi)
        (authorField recHi "name") (authorField recHi "avatar")
        (collectFiles fsOne (recAtts recHi)) (resolveThread envOk none) ∧
      (sendFiles o.performed).length = (recAtts recHi).length ∧
      sendContent o.performed = replyTag recHi ++ effContent recHi ∧
      (restoreMessages envOk fsOne false none [recHi] Counters.init).2.messages
        = Counters.init.messages + 1 := by
  apply C4_roundtrip_amended envOk fsOne none recHi
  · intro att hatt
    have : att = attDesc1 := by
      have h' : recAtts recHi = [attDesc1] := by rfl
      rw [h'] at hatt
      simpa using hatt
    subst this
    exact ⟨"2_0_pic.png", rfl, by decide, by decide⟩
  · left
    decide

/-- Claim C5 counterexample.  The claim says a record with empty content
and zero resolvable attachment files is never sent in live mode and never
counted there; a record that is additionally flagged as a reply gets the
non-empty reply annotation as content, is sent, and is counted. -/
theorem C5_counterexample_empty_reply_record_sent :
    (restoreMessages envOk fsEmpty false none [recReply] Counters.init).1.length = 1 ∧
    (restoreMessages envOk fsEmpty false none [recReply] Counters.init).2.messages = 1 := by
  constructor
  · decide
  · decide

/-- Claim C5 (amended).  For a record with empty content, an empty reply
annotation (`is_reply` or `reference` falsy), and zero resolvable
attachment files: live restore never sends it and leaves the `messages`
counter untouched, while dry-run restore sends nothing but does count the
record into `messages` — the dry-run count happens before the
empty-content/no-files skip check. -/
theorem C5_empty_record_never_sent (env : SendEnv) (fs : String → Bool)
    (tgt : Option Nat) (rec : JVal) (c : Counters)
    (hc : effContent rec = "") (hr : replyTag rec = "")
    (hf : collectFiles fs (recAtts rec) = []) :
    (restoreMessages env fs false tgt [rec] c).1 = [] ∧
    (restoreMessages env fs false tgt [rec] c).2.messages = c.messages ∧
    (restoreMessages env fs true tgt [rec] c).1 = [] ∧
    (restoreMessages env fs true tgt [rec] c).2.messages = c.messages + 1 := by
  have hcond : replyTag rec ++ effContent rec = ""
      ∧ collectFiles fs (recAtts rec) = [] := by
    rw [hc, hr, hf]
    exact ⟨rfl, rfl⟩
  refine ⟨?_, ?_, ?_, ?_⟩ <;>
    simp only [restoreMessages, Bool.false_eq_true, if_false, if_pos hcond,
      if_true]

/-- Claim C5 witness: the amended statement applied to the fixture empty
record over the empty filesystem. -/
theorem C5_empty_record_never_sent_witness :
    (restoreMessages envOk fsEmpty false none [recEmpty] Counters.init).1 = [] ∧
    (restoreMessages envOk fsEmpty false none [recEmpty] Counters.init).2.messages
      = Counters.init.messages ∧
    (restoreMessages envOk fsEmpty true none [recEmpty] Counters.init).1 = [] ∧
    (restoreMessages envOk fsEmpty true none [recEmpty] Counters.init).2.messages
      = Counters.init.messages + 1 :=
  C5_empty_record_never_sent envOk fsEmpty none recEmpty Counters.init
    (by decide) (by decide) (by decide)

/-- Claim C7 (confirmed).  Every send first attempts the webhook proxy;
when the proxy attempt raises, the performed send is the bot sending
directly into the target thread whenever a truthy thread id resolves via
`get_thread`, and directly into the channel otherwise; the model's send is
total, so the webhook failure never escapes `_send_via_webhook`. -/
theorem C7_proxy_failure_falls_back (env : SendEnv) (c : String)
    (u a : Option String) (fl : List DiscordFile) (tid : Option Nat) :
    (∃ th : Option Nat, (sendViaWebhook env c u a fl tid).attempt
        = SendAction.webhookSend c u a fl th) ∧
    (env.webhookSendFails = false →
      (sendViaWebhook env c u a fl tid).performed
        = (sendViaWebhook env c u a fl tid).attempt) ∧
    (env.webhookSendFails = true →
      ∀ t : Nat, tid = some t → t ≠ 0 → env.hasGetThread = true →
        env.resolves t = true →
        (sendViaWebhook env c u a fl tid).performed
          = SendAction.threadSend t c fl) ∧
    (env.webhookSendFails = true →
      (¬ ∃ t : Nat, tid = some t ∧ t ≠ 0 ∧ env.hasGetThread = true
          ∧ env.resolves t = true) →
      (sendViaWebhook env c u a fl tid).performed
        = SendAction.channelSend c fl) := by
  refine ⟨⟨resolveThread env tid, sendViaWebhook_attempt env c u a fl tid⟩,
    ?_, ?_, ?_⟩
  · intro hf
    unfold sendViaWebhook
    simp [hf]
  · intro hf t ht h0 hg hr
    subst ht
    unfold sendViaWebhook resolveThread
    simp [hf, h0, hg, hr]
  · intro hf hnone
    unfold sendViaWebhook resolveThread
    rcases tid with _ | t
    · simp [hf]
    · by_cases h0 : t = 0
      · simp [hf, h0]
      · have : ¬ (env.hasGetThread = true ∧ env.resolves t = true) := by
          intro ⟨hg, hr⟩
          exact hnone ⟨t, rfl, h0, hg, hr⟩
        by_cases hg : env.hasGetThread = true
        · have hr : env.resolves t ≠ true := fun hr => this ⟨hg, hr⟩
          simp [hf, h0, hg, hr]
        · simp [hf, h0, hg]

/-- Claim C7 witness: with a failing webhook, the fallback reaches thread
42 when it resolves, and the channel when no thread id is set; with a
working webhook the proxy send is the performed send. -/
theorem C7_proxy_failure_falls_back_witness :
    (sendViaWebhook envFail "x" none none [] (some 42)).performed
      = SendAction.threadSend 42 "x" [] ∧
    (sendViaWebhook envFail "x" none none [] none).performed
      = SendAction.channelSend "x" [] ∧
    (sendViaWebhook envOk "x" none none [] (some 42)).performed
      = (sendViaWebhook envOk "x" none none [] (some 42)).attempt := by
  have h1 := (C7_proxy_failure_falls_back envFail "x" none none [] (some 42)).2.2.1
    rfl 42 rfl (by decide) rfl (by decide)
  have h2 := (C7_proxy_failure_falls_back envFail "x" none none [] none).2.2.2
    rfl (by rintro ⟨t, ht, _⟩; cases ht)
  have h3 := (C7_proxy_failure_falls_back envOk "x" none none [] (some 42)).2.1 rfl
  exact ⟨h1, h2, h3⟩

/-- Claim C9 (confirmed).  Restoring into a forum channel in live mode
creates the hosting thread before any top-level message is replayed, and —
as long as the freshly created thread id is truthy and resolvable via
`get_thread` — every replayed top-level message is sent into that thread,
both in the webhook attempt and in whatever send lands; never as a
freestanding channel post. -/
theorem C9_forum_restore_into_host_thread (env : SendEnv) (hostTid : Nat)
    (fs : String → Bool) (recs : List JVal)
    (hg : env.hasGetThread = true) (hr : env.resolves hostTid = true)
    (h0 : hostTid ≠ 0) :
    (runRestoreMain .forum false env hostTid fs recs).1.head?
      = some (RestoreEvent.hostThreadCreated hostTid) ∧
    ∀ o : SendOutcome,
      RestoreEvent.send o ∈ (runRestoreMain .forum false env hostTid fs recs).1 →
      intoThread hostTid o.attempt = true ∧
      intoThread hostTid o.performed = true := by
  constructor
  · rfl
  · intro o ho
    have hunf : (runRestoreMain .forum false env hostTid fs recs).1
        = RestoreEvent.hostThreadCreated hostTid ::
          (restoreMessages env fs false (some hostTid) recs
            Counters.init).1.map RestoreEvent.send := rfl
    rw [hunf] at ho
    have hmem : RestoreEvent.send o ∈ (restoreMessages env fs false
        (some hostTid) recs Counters.init).1.map RestoreEvent.send := by
      rcases List.mem_cons.mp ho with h | h
      · exact RestoreEvent.noConfusion h
      · exact h
    obtain ⟨o', ho', heq⟩ := List.mem_map.mp hmem
    have hoo : o' = o := by
      injection heq with h
    subst hoo
    obtain ⟨rec, hrec⟩ := restoreMessages_mem env fs (some hostTid) recs
      Counters.init o' ho'
    rw [hrec]
    exact sendViaWebhook_into_resolvable env _ _ _ _ hostTid hg hr h0

/-- Claim C9 witness: a concrete forum restore of two records into host
thread 42. -/
theorem C9_forum_restore_into_host_thread_witness :
    (runRestoreMain .forum false envFail 42 fsOne [recHi, recReply]).1.head?
      = some (RestoreEvent.hostThreadCreated 42) ∧
    ∀ o : SendOutcome,
      RestoreEvent.send o ∈ (runRestoreMain .forum false envFail 42 fsOne [recHi, recReply]).1 →
      intoThread 42 o.attempt = true ∧
      intoThread 42 o.performed = true :=
  C9_forum_restore_into_host_thread envFail 42 fsOne [recHi, recReply]
    rfl (by decide) (by decide)

/-- Claim C10 (confirmed).  In a dry run, the top-level replay counts an
attachment descriptor only when its saved file passes the existence check
(`collectFiles`), while the thread replay counts every descriptor with a
truthy `saved_as` with no existence check; on the fixture record whose
saved file is missing, the top-level stage counts 0 and the thread stage
counts 1. -/
theorem C10_dry_attachment_stage_mismatch (env : SendEnv)
    (fs : String → Bool) (rec : JVal) :
    (restoreMessages env fs true none [rec] Counters.init).2.attachments
      = (collectFiles fs (recAtts rec)).length ∧
    (restoreThreadsDry [⟨true, true, [rec]⟩] Counters.init).attachments
      = (recAtts rec).countP (fun att => truthyO (jget att "saved_as")) ∧
    (restoreMessages envOk fsEmpty true none [recMissing] Counters.init).2.attachments
      = 0 ∧
    (restoreThreadsDry [⟨true, true, [recMissing]⟩] Counters.init).attachments
      = 1 := by
  refine ⟨?_, ?_, ?_, ?_⟩
  · simp [restoreMessages, Counters.init]
  · simp only [restoreThreadsDry, List.foldl_cons, List.foldl_nil,
      threadDryStep, Bool.and_self, if_true]
    rw [foldl_attCount (fun att => truthyO (jget att "saved_as"))]
    simp [Counters.init]
  · decide
  · decide

end DiscordTransfer
